import Mathlib

/-!
Shallow embedding of `pkg/virt-handler/selinux/context_executor.go` from the
KubeVirt repository, together with proofs of the specified properties of
`NewContextExecutor` and `ContextExecutor.Execute`.

The Go code interacts with the outside world through five effectful
primitives: `NewSELinux()` (the MAC availability probe),
`selinux.SetExecLabel`, `selinux.FileLabel`, `os.Getpid()`, and
`cmd.Run()`.  We model the outcomes of these primitives as an environment
`Env` (resp. a field of `Cmd` for `Run`), and every embedded function
returns, besides its Go return value, the list of observable events it
performs, in order.  Go `error` values produced by the file's `fmt.Errorf`
call sites are modelled by the inductive `GoError`, one constructor per
call site, carrying exactly the arguments the format string interpolates.

Crucially, the Go statement `defer ce.resetContext()` in `Execute`
discards the `error` returned by `resetContext` (the deferred call's
return value is dropped and `Execute` has no named result), while still
performing `resetContext`'s effects on every exit path of the guarded
region.  The embedding reproduces this exactly.
-/

namespace KubeVirtSELinux

/-- Observable events performed by the embedded code, in program order:
`runtime.LockOSThread()`, `runtime.UnlockOSThread()`,
`selinux.SetExecLabel(label)`, `syscall.CloseOnExec(fd)`,
`cmd.Run()` (the child-process start), and `selinux.FileLabel(path)`
(the label-resolver read). -/
inductive Event where
  | lockOSThread : Event
  | unlockOSThread : Event
  | setExecLabelCall : String → Event
  | closeOnExec : Nat → Event
  | runChild : Event
  | fileLabelCall : String → Event
deriving DecidableEq, Repr

/-- Go `error` values produced by this file, one constructor per
`fmt.Errorf` call site plus one for raw errors of the external selinux
library that are passed through unwrapped. -/
inductive GoError where
  | retrieveLabelFailed : Int → String → GoError
  | switchContextFailed : String → String → GoError
  | launcherNamespaceFailed : Int → String → GoError
  | rawFailure : String → GoError
deriving DecidableEq, Repr

/-- The `*exec.Cmd` child-process descriptor.  Its only behaviour visible
to this file is the outcome of `Run()`: `none` for success, `some reason`
for a non-nil error. -/
structure Cmd where
  runResult : Option String
deriving DecidableEq, Repr

/-- `cmd.Run()`: runs the child to completion, returning its error. -/
def Cmd.Run (c : Cmd) : Option String :=
  c.runResult

/-- Outcomes of the external primitives during one embedded call:
`newSELinuxErr` and `selinuxEnabled` are the error and boolean results of
`NewSELinux()`; `setExecLabel n l` is the error (if any) of the `n`-th
`selinux.SetExecLabel` call (counted from 0) when invoked on label `l`;
`fileLabel p` is the result of `selinux.FileLabel(p)`; `getpid` is
`os.Getpid()`. -/
structure Env where
  newSELinuxErr : Bool
  selinuxEnabled : Bool
  setExecLabel : Nat → String → Option String
  fileLabel : String → Except String String
  getpid : Int

/-- `minFDToCloseOnExec`: the lowest descriptor marked close-on-exec. -/
def minFDToCloseOnExec : Nat := 3

/-- `maxFDToCloseOnExec`: the (exclusive) descriptor-loop bound. -/
def maxFDToCloseOnExec : Nat := 256

/-- The `ContextExecutor` struct. -/
structure ContextExecutor where
  cmdToExecute : Cmd
  desiredLabel : String
  originalLabel : String
  pid : Int
deriving DecidableEq, Repr

/-- The path `fmt.Sprintf("/proc/%d/attr/current", pid)`. -/
def procAttrPath (pid : Int) : String :=
  "/proc/" ++ toString pid ++ "/attr/current"

/-- `getLabelForPID(pid)`: reads the label via `selinux.FileLabel` on the
process's `attr/current` file, wrapping a failure with the pid. -/
def getLabelForPID (env : Env) (pid : Int) : List Event × Except GoError String :=
  match env.fileLabel (procAttrPath pid) with
  | .error e => ([.fileLabelCall (procAttrPath pid)], .error (.retrieveLabelFailed pid e))
  | .ok l => ([.fileLabelCall (procAttrPath pid)], .ok l)

/-- `NewContextExecutor(pid, cmd)`: resolves the target pid's label, then
the calling process's own label, short-circuiting on the first failure,
and on success builds the executor with both labels captured. -/
def NewContextExecutor (env : Env) (pid : Int) (cmd : Cmd) :
    List Event × Except GoError ContextExecutor :=
  match getLabelForPID env pid with
  | (tr1, .error e) => (tr1, .error e)
  | (tr1, .ok desiredLabel) =>
    match getLabelForPID env env.getpid with
    | (tr2, .error e) => (tr1 ++ tr2, .error e)
    | (tr2, .ok originalLabel) =>
      (tr1 ++ tr2, .ok ⟨cmd, desiredLabel, originalLabel, pid⟩)

/-- `isSELinuxEnabled()`: `_, selinuxEnabled, err := NewSELinux();
return err == nil && selinuxEnabled`. -/
def isSELinuxEnabled (env : Env) : Bool :=
  !env.newSELinuxErr && env.selinuxEnabled

/-- `setDesiredContext()`: `runtime.LockOSThread()`, then
`selinux.SetExecLabel(ce.desiredLabel)` (the 0-th set call of the
invocation), wrapping a failure as the switch-context error. -/
def ContextExecutor.setDesiredContext (env : Env) (ce : ContextExecutor) :
    List Event × Option GoError :=
  ([.lockOSThread, .setExecLabelCall ce.desiredLabel],
   match env.setExecLabel 0 ce.desiredLabel with
   | some reason => some (.switchContextFailed ce.desiredLabel reason)
   | none => none)

/-- `resetContext()`: `selinux.SetExecLabel(ce.originalLabel)` (the 1st
set call of the invocation), with `runtime.UnlockOSThread()` deferred so
it runs after the set call returns, on success and on failure; the raw
library error is returned unwrapped. -/
def ContextExecutor.resetContext (env : Env) (ce : ContextExecutor) :
    List Event × Option GoError :=
  ([.setExecLabelCall ce.originalLabel, .unlockOSThread],
   (env.setExecLabel 1 ce.originalLabel).map .rawFailure)

/-- `preventFDLeakOntoChild()`: `for fd := 3; fd < 256; fd++
{ syscall.CloseOnExec(fd) \x7d`; it returns nothing and cannot fail. -/
def preventFDLeakOntoChild : List Event :=
  (List.range' minFDToCloseOnExec (maxFDToCloseOnExec - minFDToCloseOnExec)).map .closeOnExec

/-- `Execute()`: probe, conditional switch with deferred reset (whose
error is discarded), descriptor hygiene, child run with pid-tagged error
wrapping. -/
def ContextExecutor.Execute (env : Env) (ce : ContextExecutor) :
    List Event × Option GoError :=
  if isSELinuxEnabled env then
    match (ce.setDesiredContext env).2 with
    | some e => ((ce.setDesiredContext env).1, some e)
    | none =>
      match ce.cmdToExecute.Run with
      | some reason =>
        ((ce.setDesiredContext env).1 ++ preventFDLeakOntoChild ++ [.runChild]
            ++ (ce.resetContext env).1,
         some (.launcherNamespaceFailed ce.pid reason))
      | none =>
        ((ce.setDesiredContext env).1 ++ preventFDLeakOntoChild ++ [.runChild]
            ++ (ce.resetContext env).1,
         none)
  else
    match ce.cmdToExecute.Run with
    | some reason => (preventFDLeakOntoChild ++ [.runChild],
        some (.launcherNamespaceFailed ce.pid reason))
    | none => (preventFDLeakOntoChild ++ [.runChild], none)

/-- Recognizer for `setExecLabelCall` events. -/
def Event.isSetExecLabel : Event → Bool
  | .setExecLabelCall _ => true
  | _ => false

/-- Projection extracting the label argument of a `setExecLabelCall`. -/
def Event.setLabelArg : Event → Option String
  | .setExecLabelCall l => some l
  | _ => none

/-- Recognizer for `fileLabelCall` events. -/
def Event.isFileLabelCall : Event → Bool
  | .fileLabelCall _ => true
  | _ => false

/-- A label resolver realizing the spec's Scenario B: the target pid 42
resolves to "ctx_b", every other process (in particular the calling
process) resolves to "ctx_a". -/
def resolveScenarioB : String → Except String String :=
  fun p => if p = procAttrPath 42 then .ok "ctx_b" else .ok "ctx_a"

/-- Environment with SELinux enabled and every external call succeeding;
the calling process has pid 7. -/
def envEnabledOK : Env :=
  ⟨false, true, fun _ _ => none, resolveScenarioB, 7⟩

/-- Environment where the restore-time `SetExecLabel` call (the 1st set
call) fails while the switch-time call succeeds. -/
def envRestoreFail : Env :=
  ⟨false, true, fun n _ => if n = 0 then none else some "restore denied", resolveScenarioB, 7⟩

/-- Environment where the switch-time `SetExecLabel` call (the 0-th set
call) fails. -/
def envSwitchFail : Env :=
  ⟨false, true, fun n _ => if n = 0 then some "switch denied" else none, resolveScenarioB, 7⟩

/-- Environment where `NewSELinux` reports an initialization error while
its boolean result claims the subsystem enabled. -/
def envProbeInitFails : Env :=
  ⟨true, true, fun _ _ => none, resolveScenarioB, 7⟩

/-- Environment where the MAC subsystem is reported disabled. -/
def envDisabled : Env :=
  ⟨false, false, fun _ _ => none, resolveScenarioB, 7⟩

/-- Environment whose resolver fails on the target pid 42's proc file and
succeeds elsewhere. -/
def envResolveFailTarget : Env :=
  ⟨false, true, fun _ _ => none,
   fun p => if p = procAttrPath 42 then .error "no such process" else .ok "ctx_a", 7⟩

/-- Environment whose resolver fails on the calling process (pid 7) and
succeeds on the target. -/
def envResolveFailSelf : Env :=
  ⟨false, true, fun _ _ => none,
   fun p => if p = procAttrPath 7 then .error "permission denied" else .ok "ctx_b", 7⟩

/-- Executor for target pid 42 with Scenario B's labels and a child that
succeeds. -/
def ceOK : ContextExecutor := ⟨⟨none⟩, "ctx_b", "ctx_a", 42⟩

/-- Executor for target pid 42 with Scenario B's labels and a child that
fails with exit status 1. -/
def ceFailChild : ContextExecutor := ⟨⟨some "exit status 1"⟩, "ctx_b", "ctx_a", 42⟩

theorem preventFDLeak_shape :
    ∀ e ∈ preventFDLeakOntoChild, ∃ fd, e = .closeOnExec fd ∧
      minFDToCloseOnExec ≤ fd ∧ fd < maxFDToCloseOnExec := by
  intro e he
  simp only [preventFDLeakOntoChild, minFDToCloseOnExec, maxFDToCloseOnExec, List.mem_map,
    List.mem_range'_1] at he
  obtain ⟨fd, ⟨h1, h2⟩, rfl⟩ := he
  refine ⟨fd, rfl, ?_, ?_⟩ <;> simp only [minFDToCloseOnExec, maxFDToCloseOnExec] <;> omega

theorem mem_preventFDLeak (fd : Nat) :
    Event.closeOnExec fd ∈ preventFDLeakOntoChild ↔
      minFDToCloseOnExec ≤ fd ∧ fd < maxFDToCloseOnExec := by
  simp only [preventFDLeakOntoChild, minFDToCloseOnExec, maxFDToCloseOnExec, List.mem_map,
    List.mem_range'_1, Event.closeOnExec.injEq]
  constructor
  · rintro ⟨a, ⟨h1, h2⟩, rfl⟩
    omega
  · intro h
    exact ⟨fd, by omega, rfl⟩

theorem preventFDLeak_setLabelArg :
    preventFDLeakOntoChild.filterMap Event.setLabelArg = [] := by
  rw [List.filterMap_eq_nil_iff]
  intro e he
  obtain ⟨fd, rfl, -, -⟩ := preventFDLeak_shape e he
  rfl

theorem preventFDLeak_countP_eq_zero (p : Event → Bool)
    (hp : ∀ fd, p (.closeOnExec fd) = false) :
    preventFDLeakOntoChild.countP p = 0 := by
  rw [List.countP_eq_zero]
  intro e he
  obtain ⟨fd, rfl, -, -⟩ := preventFDLeak_shape e he
  simp [hp]

theorem execute_disabled_eq (env : Env) (ce : ContextExecutor)
    (hdis : isSELinuxEnabled env = false) :
    ContextExecutor.Execute env ce =
      (preventFDLeakOntoChild ++ [.runChild],
       (ce.cmdToExecute.Run).map (GoError.launcherNamespaceFailed ce.pid)) := by
  unfold ContextExecutor.Execute
  rw [hdis]
  cases h : ce.cmdToExecute.Run <;> simp [h]

theorem execute_switchFail_eq (env : Env) (ce : ContextExecutor) (reason : String)
    (hen : isSELinuxEnabled env = true)
    (hs : env.setExecLabel 0 ce.desiredLabel = some reason) :
    ContextExecutor.Execute env ce =
      ([.lockOSThread, .setExecLabelCall ce.desiredLabel],
       some (.switchContextFailed ce.desiredLabel reason)) := by
  unfold ContextExecutor.Execute ContextExecutor.setDesiredContext
  rw [hen, hs]
  simp

theorem execute_switchOK_eq (env : Env) (ce : ContextExecutor)
    (hen : isSELinuxEnabled env = true)
    (hs : env.setExecLabel 0 ce.desiredLabel = none) :
    ContextExecutor.Execute env ce =
      ([.lockOSThread, .setExecLabelCall ce.desiredLabel] ++ preventFDLeakOntoChild
          ++ [.runChild] ++ [.setExecLabelCall ce.originalLabel, .unlockOSThread],
       (ce.cmdToExecute.Run).map (GoError.launcherNamespaceFailed ce.pid)) := by
  unfold ContextExecutor.Execute ContextExecutor.setDesiredContext ContextExecutor.resetContext
  rw [hen, hs]
  cases h : ce.cmdToExecute.Run <;> simp [h]

theorem newContextExecutor_eq (env : Env) (pid : Int) (cmd : Cmd) :
    NewContextExecutor env pid cmd =
      match env.fileLabel (procAttrPath pid) with
      | .error e => ([.fileLabelCall (procAttrPath pid)],
          .error (.retrieveLabelFailed pid e))
      | .ok d =>
        match env.fileLabel (procAttrPath env.getpid) with
        | .error e => ([.fileLabelCall (procAttrPath pid), .fileLabelCall (procAttrPath env.getpid)],
            .error (.retrieveLabelFailed env.getpid e))
        | .ok o => ([.fileLabelCall (procAttrPath pid), .fileLabelCall (procAttrPath env.getpid)],
            .ok ⟨cmd, d, o, pid⟩) := by
  unfold NewContextExecutor getLabelForPID
  cases env.fileLabel (procAttrPath pid) <;> cases env.fileLabel (procAttrPath env.getpid) <;> rfl

/-- C1 (counterexample): with SELinux enabled, a successful switch, a
successful child and a failing restore, `Execute` returns nil instead of
the restoration failure — the error of the deferred `resetContext` call
is discarded, contradicting the claim that it becomes `Execute`'s
result. -/
theorem execute_discards_restore_error_cex :
    isSELinuxEnabled envRestoreFail = true ∧
    envRestoreFail.setExecLabel 0 ceOK.desiredLabel = none ∧
    ceOK.cmdToExecute.Run = none ∧
    (envRestoreFail.setExecLabel 1 ceOK.originalLabel).isSome = true ∧
    (ContextExecutor.Execute envRestoreFail ceOK).2 = none :=
  ⟨rfl, rfl, rfl, rfl, rfl⟩

/-- C1 (amended): when the label switch succeeded and the child ran
successfully, `Execute` returns nil regardless of the restoration
outcome; the restoration failure is discarded, never returned. -/
theorem execute_child_ok_returns_nil (env : Env) (ce : ContextExecutor)
    (hen : isSELinuxEnabled env = true)
    (hs : env.setExecLabel 0 ce.desiredLabel = none)
    (hr : ce.cmdToExecute.Run = none) :
    (ContextExecutor.Execute env ce).2 = none := by
  rw [execute_switchOK_eq env ce hen hs, hr]
  rfl

/-- C1 witness: the amended theorem applied where the restore fails. -/
theorem execute_child_ok_returns_nil_witness :
    (ContextExecutor.Execute envRestoreFail ceOK).2 = none :=
  execute_child_ok_returns_nil envRestoreFail ceOK rfl rfl rfl

/-- C2: when the label switch succeeds, the invocation performs exactly
two label-set calls — the switch to `desiredLabel` and, after the child
ran, exactly one restoration back to `originalLabel` — and a failing
child's error is returned wrapped with the target pid while the
restoration still occurs. -/
theorem execute_restoration_exactly_once (env : Env) (ce : ContextExecutor)
    (hen : isSELinuxEnabled env = true)
    (hs : env.setExecLabel 0 ce.desiredLabel = none) :
    ((ContextExecutor.Execute env ce).1.filterMap Event.setLabelArg
        = [ce.desiredLabel, ce.originalLabel]) ∧
    (∀ reason, ce.cmdToExecute.Run = some reason →
        (ContextExecutor.Execute env ce).2
          = some (.launcherNamespaceFailed ce.pid reason)) := by
  rw [execute_switchOK_eq env ce hen hs]
  constructor
  · simp [List.filterMap_append, preventFDLeak_setLabelArg, Event.setLabelArg]
  · intro reason hr
    rw [hr]
    rfl

/-- C2 witness: the theorem applied to a failing child under Scenario B's
labels. -/
theorem execute_restoration_exactly_once_witness :
    ((ContextExecutor.Execute envEnabledOK ceFailChild).1.filterMap Event.setLabelArg
        = [ceFailChild.desiredLabel, ceFailChild.originalLabel]) ∧
    (ContextExecutor.Execute envEnabledOK ceFailChild).2
        = some (.launcherNamespaceFailed ceFailChild.pid "exit status 1") :=
  ⟨(execute_restoration_exactly_once envEnabledOK ceFailChild rfl rfl).1,
   (execute_restoration_exactly_once envEnabledOK ceFailChild rfl rfl).2 "exit status 1" rfl⟩

/-- C3: if SELinux is enabled and the switch-time label-set call fails,
`Execute` returns the switch-context error; the whole trace is the
thread-lock followed by the failed set call, so the child was never
started, no restoration was attempted, and the OS-thread binding was
acquired but never released. -/
theorem execute_switch_failure_fail_fast (env : Env) (ce : ContextExecutor) (reason : String)
    (hen : isSELinuxEnabled env = true)
    (hs : env.setExecLabel 0 ce.desiredLabel = some reason) :
    (ContextExecutor.Execute env ce).2
        = some (.switchContextFailed ce.desiredLabel reason) ∧
    (ContextExecutor.Execute env ce).1
        = [.lockOSThread, .setExecLabelCall ce.desiredLabel] ∧
    Event.runChild ∉ (ContextExecutor.Execute env ce).1 ∧
    ((ContextExecutor.Execute env ce).1.filterMap Event.setLabelArg = [ce.desiredLabel]) ∧
    Event.lockOSThread ∈ (ContextExecutor.Execute env ce).1 ∧
    Event.unlockOSThread ∉ (ContextExecutor.Execute env ce).1 := by
  rw [execute_switchFail_eq env ce reason hen hs]
  refine ⟨rfl, rfl, by simp, by simp [Event.setLabelArg], by simp, by simp⟩

/-- C3 witness: the theorem applied to the switch-failure environment. -/
theorem execute_switch_failure_fail_fast_witness :
    (ContextExecutor.Execute envSwitchFail ceOK).2
        = some (.switchContextFailed ceOK.desiredLabel "switch denied") ∧
    Event.runChild ∉ (ContextExecutor.Execute envSwitchFail ceOK).1 := by
  have h := execute_switch_failure_fail_fast envSwitchFail ceOK "switch denied" rfl rfl
  exact ⟨h.1, h.2.2.1⟩

/-- C4: if the probe reports SELinux disabled, the invocation performs no
label-set call at all, still marks every descriptor in
[`minFDToCloseOnExec`, `maxFDToCloseOnExec`) close-on-exec, still runs
the child, and returns nil when the child succeeds. -/
theorem execute_disabled_no_label_mutation (env : Env) (ce : ContextExecutor)
    (hdis : isSELinuxEnabled env = false) :
    (∀ l, Event.setExecLabelCall l ∉ (ContextExecutor.Execute env ce).1) ∧
    (∀ fd, minFDToCloseOnExec ≤ fd → fd < maxFDToCloseOnExec →
        Event.closeOnExec fd ∈ (ContextExecutor.Execute env ce).1) ∧
    Event.runChild ∈ (ContextExecutor.Execute env ce).1 ∧
    (ce.cmdToExecute.Run = none → (ContextExecutor.Execute env ce).2 = none) := by
  rw [execute_disabled_eq env ce hdis]
  refine ⟨?_, ?_, by simp, ?_⟩
  · intro l hmem
    rw [List.mem_append] at hmem
    rcases hmem with h | h
    · obtain ⟨fd, heq, -, -⟩ := preventFDLeak_shape _ h
      exact absurd heq (by simp)
    · simp at h
  · intro fd h1 h2
    rw [List.mem_append]
    exact Or.inl ((mem_preventFDLeak fd).2 ⟨h1, h2⟩)
  · intro hr
    rw [hr]
    rfl

/-- C4 witness: the theorem applied to the disabled environment with a
succeeding child. -/
theorem execute_disabled_no_label_mutation_witness :
    Event.setExecLabelCall "ctx_b" ∉ (ContextExecutor.Execute envDisabled ceOK).1 ∧
    Event.runChild ∈ (ContextExecutor.Execute envDisabled ceOK).1 ∧
    (ContextExecutor.Execute envDisabled ceOK).2 = none := by
  have h := execute_disabled_no_label_mutation envDisabled ceOK rfl
  exact ⟨h.1 "ctx_b", h.2.2.1, h.2.2.2 rfl⟩

/-- C5: construction is atomic — its trace contains no label mutation; if
the target's resolution fails, that failure (wrapped with the target pid)
is returned and no executor is produced; if the caller's own resolution
fails, that failure (wrapped with the calling pid) is returned and no
executor is produced; if both succeed, the executor is produced with both
labels captured. -/
theorem newContextExecutor_atomic (env : Env) (pid : Int) (cmd : Cmd) :
    (∀ e ∈ (NewContextExecutor env pid cmd).1, e.isSetExecLabel = false) ∧
    (∀ r, env.fileLabel (procAttrPath pid) = .error r →
        (NewContextExecutor env pid cmd).2 = .error (.retrieveLabelFailed pid r)) ∧
    (∀ d r, env.fileLabel (procAttrPath pid) = .ok d →
        env.fileLabel (procAttrPath env.getpid) = .error r →
        (NewContextExecutor env pid cmd).2 = .error (.retrieveLabelFailed env.getpid r)) ∧
    (∀ d o, env.fileLabel (procAttrPath pid) = .ok d →
        env.fileLabel (procAttrPath env.getpid) = .ok o →
        (NewContextExecutor env pid cmd).2 = .ok ⟨cmd, d, o, pid⟩) := by
  refine ⟨?_, ?_, ?_, ?_⟩
  · intro e he
    rw [newContextExecutor_eq] at he
    cases h1 : env.fileLabel (procAttrPath pid) <;> rw [h1] at he
    · simp at he
      subst he
      rfl
    · cases h2 : env.fileLabel (procAttrPath env.getpid) <;> rw [h2] at he <;>
        simp at he <;> rcases he with rfl | rfl <;> rfl
  · intro r h1
    rw [newContextExecutor_eq, h1]
  · intro d r h1 h2
    rw [newContextExecutor_eq, h1, h2]
  · intro d o h1 h2
    rw [newContextExecutor_eq, h1, h2]

/-- C5 witness: both the failing-target case and the all-ok case of the
theorem, at concrete environments. -/
theorem newContextExecutor_atomic_witness :
    (NewContextExecutor envResolveFailTarget 42 ⟨none⟩).2
        = .error (.retrieveLabelFailed 42 "no such process") ∧
    (NewContextExecutor envEnabledOK 42 ⟨none⟩).2 = .ok ⟨⟨none⟩, "ctx_b", "ctx_a", 42⟩ :=
  ⟨(newContextExecutor_atomic envResolveFailTarget 42 ⟨none⟩).2.1 "no such process" rfl,
   (newContextExecutor_atomic envEnabledOK 42 ⟨none⟩).2.2.2 "ctx_b" "ctx_a" rfl rfl⟩

/-- C6 (counterexample): in the invocation where SELinux is enabled and
the switch-time label-set call fails, `Execute` returns before descriptor
hygiene, so no descriptor at all — in particular not fd 3 — is marked
close-on-exec, contradicting the claim that every invocation marks all of
[3, 255]. -/
theorem execute_fd_hygiene_cex :
    (ContextExecutor.Execute envSwitchFail ceOK).1
        = [.lockOSThread, .setExecLabelCall "ctx_b"] ∧
    Event.closeOnExec minFDToCloseOnExec ∉ (ContextExecutor.Execute envSwitchFail ceOK).1 := by
  decide

/-- C6 (amended): in every invocation, a descriptor marked close-on-exec
lies in [`minFDToCloseOnExec`, `maxFDToCloseOnExec`) — so 0, 1, 2 are
never marked — and in every invocation that reaches descriptor hygiene
(i.e. whenever an enabled-MAC switch does not fail) every descriptor in
that range is marked; the hygiene step itself is total and cannot fail. -/
theorem execute_fd_hygiene (env : Env) (ce : ContextExecutor) :
    (∀ fd, Event.closeOnExec fd ∈ (ContextExecutor.Execute env ce).1 →
        minFDToCloseOnExec ≤ fd ∧ fd < maxFDToCloseOnExec) ∧
    ((isSELinuxEnabled env = true → env.setExecLabel 0 ce.desiredLabel = none) →
      ∀ fd, minFDToCloseOnExec ≤ fd → fd < maxFDToCloseOnExec →
        Event.closeOnExec fd ∈ (ContextExecutor.Execute env ce).1) := by
  constructor
  · intro fd hmem
    cases hen : isSELinuxEnabled env with
    | false =>
      rw [execute_disabled_eq env ce hen] at hmem
      rw [List.mem_append] at hmem
      rcases hmem with h | h
      · exact (mem_preventFDLeak fd).1 h
      · simp at h
    | true =>
      cases hs : env.setExecLabel 0 ce.desiredLabel with
      | some r =>
        rw [execute_switchFail_eq env ce r hen hs] at hmem
        simp at hmem
      | none =>
        rw [execute_switchOK_eq env ce hen hs] at hmem
        simp [mem_preventFDLeak] at hmem
        exact hmem
  · intro hok fd h1 h2
    cases hen : isSELinuxEnabled env with
    | false =>
      rw [execute_disabled_eq env ce hen, List.mem_append]
      exact Or.inl ((mem_preventFDLeak fd).2 ⟨h1, h2⟩)
    | true =>
      rw [execute_switchOK_eq env ce hen (hok hen)]
      simp [mem_preventFDLeak, h1, h2]

/-- C6 witness: the amended theorem applied at fd 3 in the all-ok
environment. -/
theorem execute_fd_hygiene_witness :
    Event.closeOnExec 3 ∈ (ContextExecutor.Execute envEnabledOK ceOK).1 ∧
    (3 ≤ 3 ∧ 3 < 256) := by
  have h := (execute_fd_hygiene envEnabledOK ceOK).2 (fun _ => rfl) 3 (by decide) (by decide)
  have hb := (execute_fd_hygiene envEnabledOK ceOK).1 3 h
  exact ⟨h, by decide⟩

/-- C7: when SELinux is enabled and the switch succeeds, the OS-thread
lock is the very first event of the invocation (so it precedes the
label-set call), the unlock is the very last event (so it follows the
label-restore call), and each occurs exactly once — for every child and
restore outcome. -/
theorem execute_thread_binding (env : Env) (ce : ContextExecutor)
    (hen : isSELinuxEnabled env = true)
    (hs : env.setExecLabel 0 ce.desiredLabel = none) :
    (ContextExecutor.Execute env ce).1.head? = some .lockOSThread ∧
    (ContextExecutor.Execute env ce).1.getLast? = some .unlockOSThread ∧
    (ContextExecutor.Execute env ce).1.countP (fun e => decide (e = .lockOSThread)) = 1 ∧
    (ContextExecutor.Execute env ce).1.countP (fun e => decide (e = .unlockOSThread)) = 1 := by
  have hl := preventFDLeak_countP_eq_zero (fun e => decide (e = Event.lockOSThread))
    (fun fd => by simp)
  have hu := preventFDLeak_countP_eq_zero (fun e => decide (e = Event.unlockOSThread))
    (fun fd => by simp)
  rw [execute_switchOK_eq env ce hen hs]
  refine ⟨by simp, by rw [List.getLast?_append]; rfl, ?_, ?_⟩
  · simp [List.countP_append, List.countP_cons, hl]
  · simp [List.countP_append, List.countP_cons, hu]

/-- C7 witness: the theorem applied where both the child and the
restoration fail. -/
theorem execute_thread_binding_witness :
    (ContextExecutor.Execute envRestoreFail ceFailChild).1.head? = some .lockOSThread ∧
    (ContextExecutor.Execute envRestoreFail ceFailChild).1.getLast? = some .unlockOSThread :=
  ⟨(execute_thread_binding envRestoreFail ceFailChild rfl rfl).1,
   (execute_thread_binding envRestoreFail ceFailChild rfl rfl).2.1⟩

/-- C8: an initialization error of `NewSELinux` makes the probe report
SELinux as not enabled — the error is swallowed — and `Execute`
consequently succeeds whenever the child succeeds. -/
theorem probe_error_swallowed (env : Env) (ce : ContextExecutor)
    (herr : env.newSELinuxErr = true) :
    isSELinuxEnabled env = false ∧
    (ce.cmdToExecute.Run = none → (ContextExecutor.Execute env ce).2 = none) := by
  have hdis : isSELinuxEnabled env = false := by
    simp [isSELinuxEnabled, herr]
  refine ⟨hdis, fun hr => ?_⟩
  rw [execute_disabled_eq env ce hdis, hr]
  rfl

/-- C8 witness: the theorem applied to the probe-initialization-failure
environment. -/
theorem probe_error_swallowed_witness :
    isSELinuxEnabled envProbeInitFails = false ∧
    (ContextExecutor.Execute envProbeInitFails ceOK).2 = none :=
  ⟨(probe_error_swallowed envProbeInitFails ceOK rfl).1,
   (probe_error_swallowed envProbeInitFails ceOK rfl).2 rfl⟩

/-- C9 (counterexample): in the construction whose target-pid resolution
fails, the resolver is invoked exactly once, not twice as the claim
states for every `NewContextExecutor` call. -/
theorem resolver_exactly_twice_cex :
    (NewContextExecutor envResolveFailTarget 42 ⟨none⟩).1.countP Event.isFileLabelCall = 1 ∧
    ¬((NewContextExecutor envResolveFailTarget 42 ⟨none⟩).1.countP Event.isFileLabelCall = 2) := by
  decide

/-- C9 (amended): the resolver is invoked exactly twice, without caching
— first on the target pid's proc file, then on the calling process's own
— whenever the target resolution succeeds (hence in every successful
construction), and exactly once when the target resolution fails. -/
theorem resolver_invocation_counts (env : Env) (pid : Int) (cmd : Cmd) :
    (∀ d, env.fileLabel (procAttrPath pid) = .ok d →
        (NewContextExecutor env pid cmd).1
          = [.fileLabelCall (procAttrPath pid), .fileLabelCall (procAttrPath env.getpid)]) ∧
    (∀ r, env.fileLabel (procAttrPath pid) = .error r →
        (NewContextExecutor env pid cmd).1 = [.fileLabelCall (procAttrPath pid)]) := by
  constructor
  · intro d h1
    rw [newContextExecutor_eq, h1]
    cases h2 : env.fileLabel (procAttrPath env.getpid) <;> rfl
  · intro r h1
    rw [newContextExecutor_eq, h1]

/-- C9 witness: the amended theorem applied to a successful
construction. -/
theorem resolver_invocation_counts_witness :
    (NewContextExecutor envEnabledOK 42 ⟨none⟩).1
      = [.fileLabelCall (procAttrPath 42), .fileLabelCall (procAttrPath 7)] :=
  (resolver_invocation_counts envEnabledOK 42 ⟨none⟩).1 "ctx_b" rfl

/-- C10: the two resolutions are sequential and short-circuit — if the
target pid's resolution fails, the resolver is invoked exactly once (only
on the target's proc file, never on the caller's) and the target's
failure, wrapped with the target pid, is the returned error. -/
theorem resolver_short_circuit (env : Env) (pid : Int) (cmd : Cmd) (r : String)
    (h : env.fileLabel (procAttrPath pid) = .error r) :
    (NewContextExecutor env pid cmd).1 = [.fileLabelCall (procAttrPath pid)] ∧
    (NewContextExecutor env pid cmd).2 = .error (.retrieveLabelFailed pid r) := by
  rw [newContextExecutor_eq, h]
  exact ⟨rfl, rfl⟩

/-- C10 witness: the theorem applied to the failing-target environment. -/
theorem resolver_short_circuit_witness :
    (NewContextExecutor envResolveFailTarget 42 ⟨none⟩).1
        = [.fileLabelCall (procAttrPath 42)] ∧
    (NewContextExecutor envResolveFailTarget 42 ⟨none⟩).2
        = .error (.retrieveLabelFailed 42 "no such process") :=
  resolver_short_circuit envResolveFailTarget 42 ⟨none⟩ "no such process" rfl

end KubeVirtSELinux
